import Mathlib

/-!
Shallow embedding of the SwiftLogistics middleware order-processing core
(`services/worker/worker.py` and the intake route
`services/api-gateway/app/routers/orders.py`).

Modelling conventions:
* Database rows are Lean structures; SQL `UPDATE ... WHERE id=...` becomes a
  map over the row list (`updateWhere`).
* jsonb values are the inductive `Json`; a SQL `NULL` payload is conflated
  with `Json.null` (the intake always inserts a JSON object, so the
  distinction never matters here).
* Side effects that leave the database (HTTP status pushes, driver
  notifications, broker publishes, acks, adapter invocations) are recorded in
  an action trace (`Action`), threaded through a `World` value.
* The three backend adapters are oracles (`Env`): a Python exception raised
  by an adapter is `Except.error msg` carrying the exception text, since the
  worker only ever inspects `str(e)`.
* The model restricts the `order_id` / `event_id` JSON fields to strings or
  numbers (the outbox publisher always emits strings); database operations
  are assumed not to raise.
* Wall-clock columns (`updated_at`) and demo sleeps are not modelled.
-/

namespace SwiftLogistics

/-- jsonb values. -/
inductive Json where
  | null
  | bool (b : Bool)
  | num (n : Int)
  | str (s : String)
  | arr (elems : List Json)
  | obj (fields : List (String × Json))
  deriving Repr, Inhabited

/-- Field lookup in a JSON object (first binding wins, as in a dict). -/
def getField : List (String × Json) → String → Option Json
  | [], _ => none
  | (k, v) :: rest, key => if k = key then some v else getField rest key

/-- `jsonb_set`-style field update: replace an existing binding in place,
append when absent (`create_missing = true`). -/
def setField (fields : List (String × Json)) (key : String) (v : Json) :
    List (String × Json) :=
  if fields.any (fun kv => kv.1 = key) then
    fields.map (fun kv => if kv.1 = key then (key, v) else kv)
  else fields ++ [(key, v)]

/-- A row of the `orders` table. -/
structure Order where
  id : String
  client_id : String
  payload : Json
  status : String
  retry_count : Nat
  last_error : Option String
  last_event_id : Option String
  assigned_driver_id : Option String
  created_at : Nat
  deriving Repr

/-- A row of the `users` table (only `id` and `role` are read by the worker). -/
structure User where
  id : String
  role : String
  deriving Repr, DecidableEq

/-- A row of the `outbox` table. -/
structure OutboxRow where
  id : Nat
  aggregate_type : String
  aggregate_id : String
  event_type : String
  payload : Json
  deriving Repr

/-- The database: `orders`, append-only `order_events`, `outbox`, `users`. -/
structure Db where
  orders : List Order
  events : List (String × String × Json)
  outbox : List OutboxRow
  users : List User
  deriving Repr

/-- AMQP header values (the worker uses int- and string-valued headers). -/
inductive HVal where
  | int (n : Nat)
  | str (s : String)
  deriving Repr, DecidableEq

/-- The message properties the worker reads: headers and `correlation_id`. -/
structure Props where
  headers : List (String × HVal)
  correlation_id : Option String
  deriving Repr, DecidableEq

/-- Externally visible side effects, in the order they are performed. -/
inductive Action where
  | statusPush (order_id status : String)
  | notifyDriver (driver_id order_id : String)
  | cmsCall (order_id : String)
  | rosCall (order_id : String)
  | wmsCall (order_id : String)
  | ack
  | publish (queue : String) (body : Option Json)
      (headers : List (String × HVal)) (expiration : Option Nat)
  deriving Repr

/-- Database plus trace of performed side effects. -/
structure World where
  db : Db
  acts : List Action
  deriving Repr

-- ---------------- Retry tuning / queue names (worker.py constants) ------

def BASE_RETRY_TTL_MS : Nat := 2000
def MAX_RETRY_TTL_MS : Nat := 60000
def QUEUE_MAIN : String := "order.created"
def QUEUE_RETRY : String := "order.created.retry"
def QUEUE_DLQ : String := "order.created.dlq"

-- ---------------- Order store primitives --------------------------------

/-- Replace the `orders` table inside a world (helper, no effect trace). -/
def World.setOrders (w : World) (l : List Order) : World :=
  { w with db := { w.db with orders := l } }

/-- `SELECT ... FROM orders WHERE id=%s` (first matching row). -/
def lookupOrder : List Order → String → Option Order
  | [], _ => none
  | o :: rest, oid => if o.id = oid then some o else lookupOrder rest oid

/-- `UPDATE orders SET ... WHERE id=%s`: apply `f` to every matching row. -/
def updateWhere (l : List Order) (oid : String) (f : Order → Order) : List Order :=
  l.map fun o => if o.id = oid then f o else o

/-- `get_status`: current status of an order, or `none` when no row exists. -/
def get_status (db : Db) (oid : String) : Option String :=
  (lookupOrder db.orders oid).map Order.status

/-- SQL `COALESCE(%s, last_error)`. -/
def coalesce (newVal old : Option String) : Option String :=
  match newVal with
  | some s => some s
  | none => old

/-- The row-level effect of `set_status` (worker.py lines 59-93). -/
def set_status_row (status : String) (last_error : Option String)
    (inc_retry : Bool) (o : Order) : Order :=
  { o with
    status := status
    retry_count := if inc_retry then o.retry_count + 1 else o.retry_count
    last_error := coalesce last_error o.last_error }

/-- `set_status`: single-row update plus the best-effort status push. -/
def set_status (w : World) (oid status : String) (last_error : Option String)
    (inc_retry : Bool) : World :=
  { db := { w.db with orders := updateWhere w.db.orders oid (set_status_row status last_error inc_retry) }
    acts := w.acts ++ [Action.statusPush oid status] }

/-- `add_event`: append to `order_events` (modelled as always succeeding). -/
def add_event (w : World) (oid event_type : String) (details : Json) : World :=
  { w with db := { w.db with events := w.db.events ++ [(oid, event_type, details)] } }

/-- `notify_driver`: best-effort HTTP push to the driver portal. -/
def notify_driver (w : World) (driver_id oid : String) : World :=
  { w with acts := w.acts ++ [Action.notifyDriver driver_id oid] }

/-- `already_processed`: `bool(row and row[0] == event_id)`. -/
def already_processed (db : Db) (oid ev : String) : Bool :=
  match lookupOrder db.orders oid with
  | some o => o.last_event_id = some ev
  | none => false

/-- `mark_processed`: `UPDATE orders SET last_event_id=%s WHERE id=%s`. -/
def mark_processed (w : World) (oid ev : String) : World :=
  { w with db := { w.db with orders := updateWhere w.db.orders oid (fun o => { o with last_event_id := some ev }) } }

-- ---------------- Headers / message extraction --------------------------

def getHeader : List (String × HVal) → String → Option HVal
  | [], _ => none
  | (k, v) :: rest, key => if k = key then some v else getHeader rest key

/-- Python dict update `headers[key] = v`. -/
def setHeader (hs : List (String × HVal)) (key : String) (v : HVal) :
    List (String × HVal) :=
  if hs.any (fun kv => kv.1 = key) then
    hs.map (fun kv => if kv.1 = key then (key, v) else kv)
  else hs ++ [(key, v)]

/-- `get_retry_count`: `headers.get("x-retries", 0)` with `int()` fallback 0. -/
def get_retry_count (props : Props) : Nat :=
  match getHeader props.headers "x-retries" with
  | some (HVal.int n) => n
  | some (HVal.str s) => (s.toNat?).getD 0
  | none => 0

/-- Python string truthiness of a nullable string column. -/
def truthyOptStr : Option String → Bool
  | none => false
  | some s => s ≠ ""

/-- `safe_extract_order_id`: `json.loads(body)["order_id"]`. `none` stands
for an unparseable body; a missing key or a non-object body raises. -/
def safe_extract_order_id (body : Option Json) : Except String String :=
  match body with
  | none => Except.error "json parse error: Expecting value"
  | some (Json.obj fields) =>
    match getField fields "order_id" with
    | some (Json.str s) => Except.ok s
    | _ => Except.error "KeyError: order_id"
  | some _ => Except.error "TypeError: body is not a JSON object"

/-- The `correlation_id` fallback inside `safe_extract_event_id`. -/
def correlation_fallback (props : Props) : Option String :=
  match props.correlation_id with
  | some c => if c ≠ "" then some c else none
  | none => none

/-- `safe_extract_event_id`: prefer a truthy JSON field `event_id`
(`str()`-converted), else fall back to a truthy `correlation_id`. -/
def safe_extract_event_id (body : Option Json) (props : Props) : Option String :=
  match body with
  | some (Json.obj fields) =>
    match getField fields "event_id" with
    | some (Json.str s) => if s ≠ "" then some s else correlation_fallback props
    | some (Json.num n) => if n ≠ 0 then some (toString n) else correlation_fallback props
    | _ => correlation_fallback props
  | _ => correlation_fallback props

-- ---------------- Publishing ---------------------------------------------

/-- `publish_to_queue`: a broker publish with optional per-message TTL. -/
def publish_to_queue (w : World) (queue : String) (body : Option Json)
    (headers : List (String × HVal)) (expiration_ms : Option Nat) : World :=
  { w with acts := w.acts ++ [Action.publish queue body headers expiration_ms] }

/-- `publish_retry`: republish to the retry queue with `x-retries`,
`x-ttl-ms`, and the per-message expiration. -/
def publish_retry (w : World) (body : Option Json) (props : Props)
    (retry_count ttl_ms : Nat) : World :=
  publish_to_queue w QUEUE_RETRY body
    (setHeader (setHeader props.headers "x-retries" (HVal.int retry_count)) "x-ttl-ms" (HVal.int ttl_ms))
    (some ttl_ms)

/-- `publish_dlq`: publish to the DLQ with `x-dlq-reason = reason[:200]`. -/
def publish_dlq (w : World) (body : Option Json) (props : Props)
    (reason : String) : World :=
  publish_to_queue w QUEUE_DLQ body
    (setHeader props.headers "x-dlq-reason" (HVal.str (reason.take 200))) none

/-- `channel.basic_ack`. -/
def ack (w : World) : World :=
  { w with acts := w.acts ++ [Action.ack] }

/-- Record an adapter invocation in the effect trace. -/
def log_call (w : World) (a : Action) : World :=
  { w with acts := w.acts ++ [a] }

-- ---------------- Adapters ------------------------------------------------

/-- Outcome of the raw TCP exchange with WMS: a received line, or a raised
socket exception (timeout, connection refused, ...) with its message. -/
inductive TcpOutcome where
  | reply (line : String)
  | sockError (msg : String)
  deriving Repr, DecidableEq

/-- Python `str.strip()` (ASCII whitespace). -/
def strStrip (s : String) : String :=
  String.mk (((s.data.dropWhile Char.isWhitespace).reverse.dropWhile Char.isWhitespace).reverse)

/-- `call_wms_tcp`: send `ADD_PACKAGE|{order_id}`, read one line, `strip()`
it and return it; any socket exception propagates. The reply content is
never inspected. -/
def call_wms_tcp (net : String → TcpOutcome) (oid : String) : Except String String :=
  match net oid with
  | TcpOutcome.reply line => Except.ok (strStrip line)
  | TcpOutcome.sockError m => Except.error m

/-- Adapter oracles: result of `call_cms_soap` / `call_ros_rest` /
`call_wms_tcp` per order id; `Except.error` is a raised exception's text. -/
structure Env where
  cms : String → Except String String
  ros : String → Except String Json
  wms : String → Except String String

-- ---------------- Driver assignment --------------------------------------

/-- `pick_driver_id`: `SELECT id FROM users WHERE role='driver' ORDER BY id
ASC LIMIT 1` — the least driver id, or `none`. -/
def pick_driver_id (users : List User) : Option String :=
  ((users.filter (fun u => u.role = "driver")).map User.id).foldl
    (fun acc i =>
      match acc with
      | none => some i
      | some j => if i < j then some i else some j) none

/-- `assign_driver_if_missing`: return the existing (truthy) assignee, else
CAS-assign `pick_driver_id` under `assigned_driver_id IS NULL`. -/
def assign_driver_if_missing (w : World) (oid : String) : Option String × World :=
  match lookupOrder w.db.orders oid with
  | none => (none, w)
  | some o =>
    if truthyOptStr o.assigned_driver_id then (o.assigned_driver_id, w)
    else
      match pick_driver_id w.db.users with
      | none => (none, w)
      | some d =>
        let cas : Order → Order := fun o2 =>
          if o2.assigned_driver_id = none then { o2 with assigned_driver_id := some d } else o2
        (some d, w.setOrders (updateWhere w.db.orders oid cas))

/-- `json.dumps` of a nullable string. -/
def optStrJson : Option String → Json
  | some s => Json.str s
  | none => Json.null

/-- The `if driver_id: ... else: ...` tail of `mark_ready_for_driver`. -/
def driver_branch (w3 : World) (oid : String) (driver : Option String) : World :=
  match driver with
  | some d =>
    if d ≠ "" then
      notify_driver (add_event w3 oid "DRIVER_ASSIGNED" (Json.obj [("driver_id", Json.str d)])) d oid
    else
      add_event w3 oid "DRIVER_ASSIGN_FAILED" (Json.obj [("reason", Json.str "no_driver_found")])
  | none =>
    add_event w3 oid "DRIVER_ASSIGN_FAILED" (Json.obj [("reason", Json.str "no_driver_found")])

/-- `mark_ready_for_driver`: set `READY_FOR_DRIVER`, auto-assign a driver,
audit, and notify the driver when one was assigned. -/
def mark_ready_for_driver (w : World) (oid : String) : World :=
  let w1 := set_status w oid "READY_FOR_DRIVER" none false
  let p := assign_driver_if_missing w1 oid
  let w3 := add_event p.2 oid "READY_FOR_DRIVER" (Json.obj [("assigned_driver_id", optStrJson p.1)])
  driver_branch w3 oid p.1

-- ---------------- Pipeline ------------------------------------------------

/-- The worker's "done" status set. -/
def DONE_STATUSES : List String := ["READY_FOR_DRIVER", "DELIVERED", "FAILED", "DLQ"]

/-- `jsonb_set(COALESCE(payload,'{}'::jsonb), '{route}', %s::jsonb, true)`. -/
def jsonb_set_route (p : Json) (route : Json) : Json :=
  match p with
  | Json.obj fields => Json.obj (setField fields "route" route)
  | Json.null => Json.obj [("route", route)]
  | other => other

/-- The route-saving UPDATE inside `process_order`. -/
def save_route (w : World) (oid : String) (route : Json) : World :=
  w.setOrders (updateWhere w.db.orders oid (fun o => { o with payload := jsonb_set_route o.payload route }))

/-- The CMS → ROS → WMS stage sequence of `process_order` (after the skip
gate). Returns the raised exception text when a stage fails. -/
def process_order_pipeline (env : Env) (w0 : World) (oid : String) :
    World × Option String :=
  let w := add_event (set_status w0 oid "PROCESSING" none false) oid "PROCESSING" (Json.obj [])
  let w := add_event (set_status w oid "CMS_CALLING" none false) oid "CMS_CALLING" (Json.obj [])
  let w := log_call w (Action.cmsCall oid)
  match env.cms oid with
  | Except.error e => (w, some e)
  | Except.ok _ =>
    let w := add_event (set_status w oid "CMS_OK" none false) oid "CMS_OK" (Json.obj [])
    let w := add_event (set_status w oid "ROS_CALLING" none false) oid "ROS_CALLING" (Json.obj [])
    let w := log_call w (Action.rosCall oid)
    match env.ros oid with
    | Except.error e => (w, some e)
    | Except.ok route =>
      let w := save_route w oid route
      let w := add_event w oid "ROUTE_SAVED" (Json.obj [("route", route)])
      let w := add_event (set_status w oid "ROS_OK" none false) oid "ROS_OK" (Json.obj [])
      let w := add_event (set_status w oid "WMS_CALLING" none false) oid "WMS_CALLING" (Json.obj [])
      let w := log_call w (Action.wmsCall oid)
      match env.wms oid with
      | Except.error e => (w, some e)
      | Except.ok _ =>
        let w := add_event (set_status w oid "WMS_OK" none false) oid "WMS_OK" (Json.obj [])
        (mark_ready_for_driver w oid, none)

/-- `process_order`: skip gate on the done set, else run the pipeline. -/
def process_order (env : Env) (w : World) (oid : String) :
    World × Option String :=
  match get_status w.db oid with
  | some s =>
    if s ∈ DONE_STATUSES then
      (add_event w oid "SKIP_ALREADY_DONE" (Json.obj [("status", Json.str s)]), none)
    else process_order_pipeline env w oid
  | none => process_order_pipeline env w oid

-- ---------------- Failure classification / retry scheduling --------------

/-- `needle in hay` for char lists (Python substring test). -/
def charsPrefix : List Char → List Char → Bool
  | [], _ => true
  | _ :: _, [] => false
  | a :: as, b :: bs => a == b && charsPrefix as bs

def charsContains (needle : List Char) : List Char → Bool
  | [] => charsPrefix needle []
  | c :: rest => charsPrefix needle (c :: rest) || charsContains needle rest

/-- Python `needle in hay` on strings. -/
def strContains (hay needle : String) : Bool :=
  charsContains needle.data hay.data

/-- Python `str.lower()` (ASCII; error texts are ASCII). -/
def strLower (s : String) : String :=
  String.mk (s.data.map Char.toLower)

/-- The keyword classification of an exception text in `on_msg`. -/
def classify_error (err : String) : String :=
  let lower := strLower err
  if strContains lower "soap" || strContains lower "cms" then "CMS_ERROR"
  else if strContains lower "ros" || strContains lower "optimize" || strContains lower "route" then "ROS_ERROR"
  else if strContains lower "wms" || strContains lower "socket" || strContains lower "tcp" then "WMS_ERROR"
  else "FAILED"

/-- The best-effort `*_ERROR`/`FAILED` classification update in the
`except` block of `on_msg` (skipped for a falsy `order_id`). -/
def classify_update (w : World) (oidOpt : Option String) (err : String) : World :=
  match oidOpt with
  | some oid =>
    if oid ≠ "" then
      add_event (set_status w oid (classify_error err) (some err) true) oid
        (classify_error err) (Json.obj [("err", Json.str err)])
    else w
  | none => w

/-- The `RETRY_SCHEDULED` audit (only for a truthy `order_id`). -/
def audit_retry_scheduled (w : World) (oidOpt : Option String)
    (next_retry ttl_ms : Nat) : World :=
  match oidOpt with
  | some oid =>
    if oid ≠ "" then
      add_event w oid "RETRY_SCHEDULED"
        (Json.obj [("retry", Json.num next_retry), ("ttl_ms", Json.num ttl_ms)])
    else w
  | none => w

/-- The final `DLQ` status write and audit (only for a truthy `order_id`). -/
def finalize_dlq (w : World) (oidOpt : Option String) (err : String)
    (retries : Nat) : World :=
  match oidOpt with
  | some oid =>
    if oid ≠ "" then
      add_event (set_status w oid "DLQ" (some err) false) oid "DLQ"
        (Json.obj [("err", Json.str err), ("retries", Json.num retries)])
    else w
  | none => w

/-- The `except` block of `on_msg`: best-effort status classification, ack,
then schedule a retry or park in the DLQ. `oidOpt` is Python's `order_id`
local (`none` when extraction raised before assignment). -/
def handle_failure (maxRetries : Nat) (w0 : World) (oidOpt : Option String)
    (body : Option Json) (props : Props) (err : String) : World :=
  let retries := get_retry_count props
  let w := ack (classify_update w0 oidOpt err)
  if retries < maxRetries then
    let next_retry := retries + 1
    let ttl_ms := min MAX_RETRY_TTL_MS (BASE_RETRY_TTL_MS * 2 ^ (next_retry - 1))
    audit_retry_scheduled (publish_retry w body props next_retry ttl_ms) oidOpt next_retry ttl_ms
  else
    finalize_dlq (publish_dlq w body props err) oidOpt err retries

/-- The idempotency-gate condition
`order_id and event_id and already_processed(order_id, event_id)`. -/
def dup_gate (w : World) (oid : String) (event_id : Option String) : Bool :=
  (oid ≠ "" : Bool) &&
    (match event_id with
     | some ev => (ev ≠ "" : Bool) && already_processed w.db oid ev
     | none => false)

/-- `if order_id and event_id: mark_processed(...)` on the success path. -/
def mark_if_truthy (w1 : World) (oid : String) (event_id : Option String) : World :=
  match event_id with
  | some ev => if oid ≠ "" ∧ ev ≠ "" then mark_processed w1 oid ev else w1
  | none => w1

/-- The consumer callback after `order_id`/`event_id` extraction succeeded. -/
def on_msg_parsed (env : Env) (maxRetries : Nat) (w : World) (oid : String)
    (event_id : Option String) (body : Option Json) (props : Props) : World :=
  if dup_gate w oid event_id then
    ack (add_event w oid "DUPLICATE_SKIP" (Json.obj [("event_id", optStrJson event_id)]))
  else
    match process_order env w oid with
    | (w1, none) => ack (mark_if_truthy w1 oid event_id)
    | (w1, some e) => handle_failure maxRetries w1 (some oid) body props e

/-- The consumer callback `on_msg`. -/
def on_msg (env : Env) (maxRetries : Nat) (w : World) (body : Option Json)
    (props : Props) : World :=
  match safe_extract_order_id body with
  | Except.error e => handle_failure maxRetries w none body props e
  | Except.ok oid =>
    on_msg_parsed env maxRetries w oid (safe_extract_event_id body props) body props

-- ---------------- Outbox publisher ---------------------------------------

/-- Insertion into a list sorted by ascending `id`. -/
def insertById (r : OutboxRow) : List OutboxRow → List OutboxRow
  | [] => [r]
  | x :: xs => if r.id ≤ x.id then r :: x :: xs else x :: insertById r xs

/-- `ORDER BY id` over the outbox rows. -/
def sortById (rows : List OutboxRow) : List OutboxRow :=
  rows.foldr insertById []

/-- `outbox_fetch_batch`: `SELECT ... ORDER BY id LIMIT %s`. -/
def outbox_fetch_batch (rows : List OutboxRow) (limit : Nat) : List OutboxRow :=
  (sortById rows).take limit

/-- `DELETE FROM outbox WHERE id=%s`. -/
def outbox_delete (db : Db) (outbox_id : Nat) : Db :=
  { db with outbox := db.outbox.filter (fun r => r.id ≠ outbox_id) }

/-- The message body built by the outbox publisher for a claimed row. -/
def outbox_msg (r : OutboxRow) : Json :=
  Json.obj [("order_id", Json.str r.aggregate_id),
            ("event_id", Json.str (toString r.id)),
            ("aggregate_type", Json.str r.aggregate_type),
            ("payload", r.payload)]

/-- The properties of a freshly published outbox message. -/
def outbox_msg_props (r : OutboxRow) : Props :=
  { headers := [], correlation_id := some (toString r.id) }

/-- One claimed row in `run_outbox_publisher`: on successful publish delete
the row and best-effort mark `QUEUED`; on failure leave the row pending. -/
def outbox_publish_row (pubOk : OutboxRow → Bool) (w : World) (r : OutboxRow) : World :=
  if pubOk r then
    let w := publish_to_queue w QUEUE_MAIN (some (outbox_msg r)) [] none
    let w := { w with db := outbox_delete w.db r.id }
    let w := set_status w r.aggregate_id "QUEUED" none false
    add_event w r.aggregate_id "QUEUED" (Json.obj [("outbox_id", Json.num r.id)])
  else w

def outbox_publish_rows (pubOk : OutboxRow → Bool) : World → List OutboxRow → World
  | w, [] => w
  | w, r :: rs => outbox_publish_rows pubOk (outbox_publish_row pubOk w r) rs

/-- One iteration of the publisher loop over a claimed batch. -/
def run_outbox_batch (pubOk : OutboxRow → Bool) (w : World) (limit : Nat) : World :=
  outbox_publish_rows pubOk w (outbox_fetch_batch w.db.outbox limit)

-- ---------------- Intake (api-gateway create_order) ----------------------

/-- `create_order`: insert the `NEW` order row and its outbox row in one
transaction, then audit `CREATED` and `OUTBOX_ENQUEUED`. -/
def create_order (w : World) (order_id client_id : String) (payload : Json)
    (outbox_id created_ms : Nat) : World :=
  let row : Order :=
    ⟨order_id, client_id, payload, "NEW", 0, none, none, none, created_ms⟩
  let obRow : OutboxRow :=
    ⟨outbox_id, "order", order_id, "ORDER_CREATED", Json.obj [("order_id", Json.str order_id)]⟩
  let db1 : Db := ⟨w.db.orders ++ [row], w.db.events, w.db.outbox ++ [obRow], w.db.users⟩
  let w := { w with db := db1 }
  let w := add_event w order_id "CREATED" (Json.obj [("client_id", Json.str client_id)])
  add_event w order_id "OUTBOX_ENQUEUED" (Json.obj [("event_type", Json.str "ORDER_CREATED")])

/-- Event types audited for one order, in insertion order. -/
def eventTypesFor (db : Db) (oid : String) : List String :=
  (db.events.filter (fun e => e.1 = oid)).map (fun e => e.2.1)

/-- The happy-path scenario: intake, one publisher batch (publish succeeds),
then one consumer dispatch. -/
def happy_run (env : Env) (maxRetries : Nat) (users : List User)
    (order_id client_id : String) (payload : Json) : World :=
  let w0 : World := ⟨⟨[], [], [], users⟩, []⟩
  let w1 := create_order w0 order_id client_id payload 1 0
  let w2 := run_outbox_batch (fun _ => true) w1 50
  let row : OutboxRow :=
    ⟨1, "order", order_id, "ORDER_CREATED", Json.obj [("order_id", Json.str order_id)]⟩
  on_msg env maxRetries w2 (some (outbox_msg row)) (outbox_msg_props row)

/-- Number of consumer dispatches a persistently failing delivery undergoes
before (and including) the one that parks it in the DLQ, when its current
`x-retries` header is `r`; follows the `retries < MAX_RETRIES` decision of
`handle_failure`. -/
def dispatches_until_dlq (maxRetries : Nat) (r : Nat) : Nat :=
  if r < maxRetries then dispatches_until_dlq maxRetries (r + 1) + 1 else 1
  termination_by maxRetries - r

/-- `payload.route` of an order's payload. -/
def payloadRoute : Json → Option Json
  | Json.obj fields => getField fields "route"
  | _ => none

/-- Python `s.startswith(pre)`. -/
def strStarts (s pre : String) : Bool :=
  charsPrefix pre.data s.data

-- ---------------- Concrete fixtures -------------------------------------

/-- An environment in which all three adapters succeed. -/
def okEnv : Env :=
  ⟨fun _ => Except.ok "<CreateOrderResponse/>",
   fun _ => Except.ok (Json.obj [("distance_km", Json.num 12)]),
   fun _ => Except.ok "OK|WMS_OK"⟩

/-- A WMS endpoint that answers `NACK` to every request. -/
def nackNet : String → TcpOutcome := fun _ => TcpOutcome.reply "NACK"

/-- All adapters reachable, but WMS answers `NACK`. -/
def nackEnv : Env :=
  ⟨fun _ => Except.ok "<CreateOrderResponse/>",
   fun _ => Except.ok (Json.obj [("distance_km", Json.num 12)]),
   call_wms_tcp nackNet⟩

/-- An environment whose CMS call raises an unclassifiable error text. -/
def boomEnv : Env :=
  ⟨fun _ => Except.error "boom",
   fun _ => Except.ok (Json.obj []),
   fun _ => Except.ok "OK|WMS_OK"⟩

/-- One `PROCESSING` order, no driver candidates. -/
def orderO1 : Order := ⟨"O1", "C001", Json.obj [], "PROCESSING", 0, none, none, none, 0⟩

def wOne : World := ⟨⟨[orderO1], [], [], []⟩, []⟩

/-- A fresh `NEW` order with one driver candidate. -/
def orderNew : Order := ⟨"O1", "C001", Json.obj [], "NEW", 0, none, none, none, 0⟩

def wNew : World := ⟨⟨[orderNew], [], [], [⟨"D1", "driver"⟩]⟩, []⟩

/-- An order whose `last_event_id` already records event `"42"`. -/
def orderDone : Order :=
  ⟨"ORD-7", "C001", Json.obj [], "READY_FOR_DRIVER", 0, none, some "42", some "D1", 0⟩

def wDone : World := ⟨⟨[orderDone], [], [], [⟨"D1", "driver"⟩]⟩, []⟩

/-- The broker message `{order_id: "ORD-7", event_id: "42"}`. -/
def bodyDup : Option Json :=
  some (Json.obj [("order_id", Json.str "ORD-7"), ("event_id", Json.str "42")])

def propsDup : Props := ⟨[], some "42"⟩

/-- A first delivery for order `O1`. -/
def bodyO1 : Option Json :=
  some (Json.obj [("order_id", Json.str "O1"), ("event_id", Json.str "9")])

def propsO1 : Props := ⟨[], some "9"⟩

def wEmpty : World := ⟨⟨[], [], [], []⟩, []⟩

def propsFresh : Props := ⟨[], some "7"⟩

def propsSpent : Props := ⟨[("x-retries", HVal.int 5)], some "7"⟩

/-- An outbox with two pending rows. -/
def obRow1 : OutboxRow := ⟨1, "order", "O1", "ORDER_CREATED", Json.obj [("order_id", Json.str "O1")]⟩

def obRow2 : OutboxRow := ⟨2, "order", "O2", "ORDER_CREATED", Json.obj [("order_id", Json.str "O2")]⟩

def wOutbox : World := ⟨⟨[], [], [obRow1, obRow2], []⟩, []⟩

/-- A publisher oracle for which the broker rejects row 1. -/
def pubFail1 : OutboxRow → Bool := fun r => r.id ≠ 1

-- ---------------- Invariant relations ------------------------------------

/-- What any worker-side store operation may do to one order row: the id is
kept, `retry_count` never decreases, a non-null `assigned_driver_id` is kept. -/
def Evolves (o o' : Order) : Prop :=
  o'.id = o.id ∧ o.retry_count ≤ o'.retry_count ∧
    ∀ d, o.assigned_driver_id = some d → o'.assigned_driver_id = some d

/-- `Evolves`, lifted to whole worlds (about the `orders` table only). -/
def WEvolves (w w' : World) : Prop :=
  List.Forall₂ Evolves w.db.orders w'.db.orders

/-- Write-once-ness of `assigned_driver_id`, row-wise. -/
def KeepsAssigned (o o' : Order) : Prop :=
  ∀ d, o.assigned_driver_id = some d → o'.assigned_driver_id = some d

/-- Monotonicity of `retry_count`, row-wise. -/
def RetryMono (o o' : Order) : Prop :=
  o.retry_count ≤ o'.retry_count

-- =========================================================================
-- Projection lemmas for the store operations
-- =========================================================================

@[simp] theorem setOrders_orders (w : World) (l : List Order) : (w.setOrders l).db.orders = l := rfl
@[simp] theorem setOrders_events (w : World) (l : List Order) : (w.setOrders l).db.events = w.db.events := rfl
@[simp] theorem setOrders_outbox (w : World) (l : List Order) : (w.setOrders l).db.outbox = w.db.outbox := rfl
@[simp] theorem setOrders_users (w : World) (l : List Order) : (w.setOrders l).db.users = w.db.users := rfl
@[simp] theorem setOrders_acts (w : World) (l : List Order) : (w.setOrders l).acts = w.acts := rfl

@[simp] theorem set_status_orders (w : World) (oid st : String) (le : Option String) (inc : Bool) :
    (set_status w oid st le inc).db.orders = updateWhere w.db.orders oid (set_status_row st le inc) := rfl
@[simp] theorem set_status_events (w : World) (oid st : String) (le : Option String) (inc : Bool) :
    (set_status w oid st le inc).db.events = w.db.events := rfl
@[simp] theorem set_status_outbox (w : World) (oid st : String) (le : Option String) (inc : Bool) :
    (set_status w oid st le inc).db.outbox = w.db.outbox := rfl
@[simp] theorem set_status_users (w : World) (oid st : String) (le : Option String) (inc : Bool) :
    (set_status w oid st le inc).db.users = w.db.users := rfl
@[simp] theorem set_status_acts (w : World) (oid st : String) (le : Option String) (inc : Bool) :
    (set_status w oid st le inc).acts = w.acts ++ [Action.statusPush oid st] := rfl

@[simp] theorem add_event_orders (w : World) (oid t : String) (d : Json) :
    (add_event w oid t d).db.orders = w.db.orders := rfl
@[simp] theorem add_event_events (w : World) (oid t : String) (d : Json) :
    (add_event w oid t d).db.events = w.db.events ++ [(oid, t, d)] := rfl
@[simp] theorem add_event_outbox (w : World) (oid t : String) (d : Json) :
    (add_event w oid t d).db.outbox = w.db.outbox := rfl
@[simp] theorem add_event_users (w : World) (oid t : String) (d : Json) :
    (add_event w oid t d).db.users = w.db.users := rfl
@[simp] theorem add_event_acts (w : World) (oid t : String) (d : Json) :
    (add_event w oid t d).acts = w.acts := rfl

@[simp] theorem notify_driver_orders (w : World) (d oid : String) :
    (notify_driver w d oid).db.orders = w.db.orders := rfl
@[simp] theorem notify_driver_events (w : World) (d oid : String) :
    (notify_driver w d oid).db.events = w.db.events := rfl
@[simp] theorem notify_driver_acts (w : World) (d oid : String) :
    (notify_driver w d oid).acts = w.acts ++ [Action.notifyDriver d oid] := rfl

@[simp] theorem mark_processed_orders (w : World) (oid ev : String) :
    (mark_processed w oid ev).db.orders = updateWhere w.db.orders oid (fun o => { o with last_event_id := some ev }) := rfl
@[simp] theorem mark_processed_events (w : World) (oid ev : String) :
    (mark_processed w oid ev).db.events = w.db.events := rfl
@[simp] theorem mark_processed_acts (w : World) (oid ev : String) :
    (mark_processed w oid ev).acts = w.acts := rfl

@[simp] theorem publish_to_queue_db (w : World) (q : String) (b : Option Json)
    (hs : List (String × HVal)) (e : Option Nat) : (publish_to_queue w q b hs e).db = w.db := rfl
@[simp] theorem publish_to_queue_acts (w : World) (q : String) (b : Option Json)
    (hs : List (String × HVal)) (e : Option Nat) :
    (publish_to_queue w q b hs e).acts = w.acts ++ [Action.publish q b hs e] := rfl

@[simp] theorem ack_db (w : World) : (ack w).db = w.db := rfl
@[simp] theorem ack_acts (w : World) : (ack w).acts = w.acts ++ [Action.ack] := rfl

@[simp] theorem save_route_orders (w : World) (oid : String) (route : Json) :
    (save_route w oid route).db.orders = updateWhere w.db.orders oid (fun o => { o with payload := jsonb_set_route o.payload route }) := rfl
@[simp] theorem save_route_events (w : World) (oid : String) (route : Json) :
    (save_route w oid route).db.events = w.db.events := rfl
@[simp] theorem save_route_acts (w : World) (oid : String) (route : Json) :
    (save_route w oid route).acts = w.acts := rfl

-- =========================================================================
-- Lookup lemmas
-- =========================================================================

theorem lookupOrder_id : ∀ {l : List Order} {oid : String} {o : Order},
    lookupOrder l oid = some o → o.id = oid
  | [], _, _, h => by simp [lookupOrder] at h
  | a :: rest, oid, o, h => by
    by_cases ha : a.id = oid
    · rw [lookupOrder, if_pos ha] at h
      cases h
      exact ha
    · rw [lookupOrder, if_neg ha] at h
      exact lookupOrder_id h

/-- Effect of a single-row UPDATE on a lookup, for id-preserving updates. -/
theorem lookupOrder_updateWhere (l : List Order) (q oid : String) (f : Order → Order)
    (hf : ∀ o, (f o).id = o.id) :
    lookupOrder (updateWhere l q f) oid
      = (lookupOrder l oid).map (fun o => if o.id = q then f o else o) := by
  induction l with
  | nil => simp [lookupOrder, updateWhere]
  | cons a rest ih =>
    simp only [updateWhere] at ih
    rw [updateWhere, List.map_cons]
    by_cases haq : a.id = q
    · rw [if_pos haq, lookupOrder, lookupOrder, hf a]
      by_cases hao : a.id = oid
      · rw [if_pos hao, if_pos hao]
        simp [haq]
      · rw [if_neg hao, if_neg hao]
        exact ih
    · rw [if_neg haq, lookupOrder, lookupOrder]
      by_cases hao : a.id = oid
      · rw [if_pos hao, if_pos hao]
        simp [haq]
      · rw [if_neg hao, if_neg hao]
        exact ih

-- =========================================================================
-- Forall₂ machinery and the Evolves invariant
-- =========================================================================

theorem forall₂_refl_of {α : Type} {R : α → α → Prop} (hR : ∀ a, R a a) :
    ∀ (l : List α), List.Forall₂ R l l
  | [] => List.Forall₂.nil
  | a :: rest => List.Forall₂.cons (hR a) (forall₂_refl_of hR rest)

theorem forall₂_trans_of {α : Type} {R : α → α → Prop}
    (hR : ∀ a b c, R a b → R b c → R a c) :
    ∀ {l₁ l₂ l₃ : List α}, List.Forall₂ R l₁ l₂ → List.Forall₂ R l₂ l₃ →
      List.Forall₂ R l₁ l₃
  | _, _, _, List.Forall₂.nil, List.Forall₂.nil => List.Forall₂.nil
  | _, _, _, List.Forall₂.cons h₁ t₁, List.Forall₂.cons h₂ t₂ =>
    List.Forall₂.cons (hR _ _ _ h₁ h₂) (forall₂_trans_of hR t₁ t₂)

theorem forall₂_updateWhere {R : Order → Order → Prop} {f : Order → Order}
    (hrefl : ∀ o, R o o) (hf : ∀ o, R o (f o)) :
    ∀ (l : List Order) (q : String), List.Forall₂ R l (updateWhere l q f)
  | [], _ => List.Forall₂.nil
  | a :: rest, q => by
    rw [updateWhere, List.map_cons]
    refine List.Forall₂.cons ?_ ?_
    · by_cases ha : a.id = q
      · rw [if_pos ha]
        exact hf a
      · rw [if_neg ha]
        exact hrefl a
    · simpa [updateWhere] using forall₂_updateWhere hrefl hf rest q

/-- Lookup transport along a pointwise list relation that preserves ids. -/
theorem forall₂_lookup {R : Order → Order → Prop}
    (hid : ∀ o o', R o o' → o'.id = o.id) :
    ∀ {l l' : List Order}, List.Forall₂ R l l' →
      ∀ {oid o}, lookupOrder l oid = some o →
        ∃ o', lookupOrder l' oid = some o' ∧ R o o'
  | _, _, List.Forall₂.nil, oid, o, h => by simp [lookupOrder] at h
  | _, _, List.Forall₂.cons (a := a) (b := b) hab t, oid, o, h => by
    by_cases ha : a.id = oid
    · rw [lookupOrder, if_pos ha] at h
      cases h
      exact ⟨b, by rw [lookupOrder, if_pos ((hid _ _ hab).trans ha)], hab⟩
    · rw [lookupOrder, if_neg ha] at h
      obtain ⟨o', ho', hr⟩ := forall₂_lookup hid t h
      exact ⟨o', by rwa [lookupOrder, if_neg (fun hb => ha ((hid _ _ hab) ▸ hb))], hr⟩

theorem evolves_refl (o : Order) : Evolves o o := ⟨rfl, le_refl _, fun _ h => h⟩

theorem evolves_trans {a b c : Order} (h₁ : Evolves a b) (h₂ : Evolves b c) :
    Evolves a c :=
  ⟨h₂.1.trans h₁.1, h₁.2.1.trans h₂.2.1, fun d hd => h₂.2.2 d (h₁.2.2 d hd)⟩

theorem wevolves_refl (w : World) : WEvolves w w :=
  forall₂_refl_of evolves_refl _

theorem wevolves_trans {a b c : World} (h₁ : WEvolves a b) (h₂ : WEvolves b c) :
    WEvolves a c :=
  @forall₂_trans_of Order Evolves (fun _ _ _ hab hbc => evolves_trans hab hbc) _ _ _ h₁ h₂

theorem wevolves_of_orders_eq {w w' : World} (h : w'.db.orders = w.db.orders) :
    WEvolves w w' := by
  rw [WEvolves, h]
  exact forall₂_refl_of evolves_refl _

theorem wevolves_of_updateWhere {w w' : World} {q : String} {f : Order → Order}
    (hf : ∀ o, Evolves o (f o))
    (h : w'.db.orders = updateWhere w.db.orders q f) : WEvolves w w' := by
  rw [WEvolves, h]
  exact forall₂_updateWhere evolves_refl hf _ _

@[simp] theorem log_call_db (w : World) (a : Action) : (log_call w a).db = w.db := rfl
@[simp] theorem log_call_acts (w : World) (a : Action) :
    (log_call w a).acts = w.acts ++ [a] := rfl

-- ---------------- Evolves lemmas for the row transformers ----------------

theorem evolves_row_set_status (st : String) (le : Option String) (inc : Bool) :
    ∀ o, Evolves o (set_status_row st le inc o) := by
  intro o
  refine ⟨rfl, ?_, fun d hd => hd⟩
  cases inc <;> simp [set_status_row]

theorem evolves_row_route (route : Json) :
    ∀ o : Order, Evolves o { o with payload := jsonb_set_route o.payload route } :=
  fun _ => ⟨rfl, le_refl _, fun _ hd => hd⟩

theorem evolves_row_mark (ev : String) :
    ∀ o : Order, Evolves o { o with last_event_id := some ev } :=
  fun _ => ⟨rfl, le_refl _, fun _ hd => hd⟩

theorem evolves_row_cas (d : String) :
    ∀ o : Order, Evolves o
      (if o.assigned_driver_id = none then { o with assigned_driver_id := some d } else o) := by
  intro o
  by_cases hn : o.assigned_driver_id = none
  · rw [if_pos hn]
    exact ⟨rfl, le_refl _, fun d₀ hd₀ => by rw [hn] at hd₀; cases hd₀⟩
  · rw [if_neg hn]
    exact evolves_refl o

-- ---------------- WEvolves lemmas for each operation ---------------------

theorem wevolves_set_status (w : World) (oid st : String) (le : Option String)
    (inc : Bool) : WEvolves w (set_status w oid st le inc) :=
  wevolves_of_updateWhere (evolves_row_set_status st le inc) rfl

theorem wevolves_add_event (w : World) (oid t : String) (d : Json) :
    WEvolves w (add_event w oid t d) :=
  wevolves_of_orders_eq rfl

theorem wevolves_status_event (w : World) (oid st : String) (le : Option String)
    (inc : Bool) (t : String) (d : Json) :
    WEvolves w (add_event (set_status w oid st le inc) oid t d) :=
  wevolves_trans (wevolves_set_status w oid st le inc) (wevolves_add_event _ oid t d)

theorem wevolves_log_call (w : World) (a : Action) : WEvolves w (log_call w a) :=
  wevolves_of_orders_eq rfl

theorem wevolves_ack (w : World) : WEvolves w (ack w) :=
  wevolves_of_orders_eq rfl

theorem wevolves_publish_to_queue (w : World) (q : String) (b : Option Json)
    (hs : List (String × HVal)) (e : Option Nat) :
    WEvolves w (publish_to_queue w q b hs e) :=
  wevolves_of_orders_eq rfl

theorem wevolves_save_route (w : World) (oid : String) (route : Json) :
    WEvolves w (save_route w oid route) :=
  wevolves_of_updateWhere (evolves_row_route route) rfl

theorem wevolves_mark_processed (w : World) (oid ev : String) :
    WEvolves w (mark_processed w oid ev) :=
  wevolves_of_updateWhere (evolves_row_mark ev) rfl

theorem wevolves_assign (w : World) (oid : String) :
    WEvolves w (assign_driver_if_missing w oid).2 := by
  unfold assign_driver_if_missing
  split
  · exact wevolves_refl w
  · split
    · exact wevolves_refl w
    · split
      · exact wevolves_refl w
      · exact wevolves_of_updateWhere (evolves_row_cas _) rfl

theorem driver_branch_orders (w : World) (oid : String) (driver : Option String) :
    (driver_branch w oid driver).db.orders = w.db.orders := by
  unfold driver_branch
  split
  · split <;> simp
  · simp

theorem wevolves_driver_branch (w : World) (oid : String) (driver : Option String) :
    WEvolves w (driver_branch w oid driver) :=
  wevolves_of_orders_eq (driver_branch_orders w oid driver)

theorem wevolves_mark_ready (w : World) (oid : String) :
    WEvolves w (mark_ready_for_driver w oid) := by
  unfold mark_ready_for_driver
  have h12 : WEvolves w (assign_driver_if_missing (set_status w oid "READY_FOR_DRIVER" none false) oid).2 :=
    wevolves_trans (wevolves_set_status w oid "READY_FOR_DRIVER" none false)
      (wevolves_assign _ oid)
  exact wevolves_trans h12 (wevolves_trans (wevolves_add_event _ _ _ _)
    (wevolves_driver_branch _ oid _))

theorem wevolves_pipeline (env : Env) (w : World) (oid : String) :
    WEvolves w (process_order_pipeline env w oid).1 := by
  unfold process_order_pipeline
  have h2 : WEvolves w (log_call (add_event (set_status (add_event (set_status w oid "PROCESSING" none false) oid "PROCESSING" (Json.obj [])) oid "CMS_CALLING" none false) oid "CMS_CALLING" (Json.obj [])) (Action.cmsCall oid)) :=
    wevolves_trans (wevolves_status_event w oid "PROCESSING" none false "PROCESSING" (Json.obj []))
      (wevolves_trans (wevolves_status_event _ oid "CMS_CALLING" none false "CMS_CALLING" (Json.obj []))
        (wevolves_log_call _ _))
  cases hc : env.cms oid with
  | error e => exact h2
  | ok c =>
    have h3 := wevolves_trans h2
      (wevolves_trans (wevolves_status_event _ oid "CMS_OK" none false "CMS_OK" (Json.obj []))
        (wevolves_trans (wevolves_status_event _ oid "ROS_CALLING" none false "ROS_CALLING" (Json.obj []))
          (wevolves_log_call _ (Action.rosCall oid))))
    cases hr : env.ros oid with
    | error e => exact h3
    | ok route =>
      have h4 := wevolves_trans h3
        (wevolves_trans (wevolves_save_route _ oid route)
          (wevolves_trans (wevolves_add_event _ oid "ROUTE_SAVED" (Json.obj [("route", route)]))
            (wevolves_trans (wevolves_status_event _ oid "ROS_OK" none false "ROS_OK" (Json.obj []))
              (wevolves_trans (wevolves_status_event _ oid "WMS_CALLING" none false "WMS_CALLING" (Json.obj []))
                (wevolves_log_call _ (Action.wmsCall oid))))))
      cases hw : env.wms oid with
      | error e => exact h4
      | ok s =>
        exact wevolves_trans h4
          (wevolves_trans (wevolves_status_event _ oid "WMS_OK" none false "WMS_OK" (Json.obj []))
            (wevolves_mark_ready _ oid))

theorem wevolves_process_order (env : Env) (w : World) (oid : String) :
    WEvolves w (process_order env w oid).1 := by
  unfold process_order
  split
  · split
    · exact wevolves_add_event w oid "SKIP_ALREADY_DONE" _
    · exact wevolves_pipeline env w oid
  · exact wevolves_pipeline env w oid

theorem wevolves_classify_update (w : World) (oidOpt : Option String) (err : String) :
    WEvolves w (classify_update w oidOpt err) := by
  unfold classify_update
  split
  · split
    · exact wevolves_status_event _ _ _ _ _ _ _
    · exact wevolves_refl w
  · exact wevolves_refl w

theorem audit_retry_scheduled_orders (w : World) (oidOpt : Option String)
    (next_retry ttl_ms : Nat) :
    (audit_retry_scheduled w oidOpt next_retry ttl_ms).db.orders = w.db.orders := by
  unfold audit_retry_scheduled
  split
  · split <;> simp
  · simp

theorem wevolves_finalize_dlq (w : World) (oidOpt : Option String) (err : String)
    (retries : Nat) : WEvolves w (finalize_dlq w oidOpt err retries) := by
  unfold finalize_dlq
  split
  · split
    · exact wevolves_status_event _ _ _ _ _ _ _
    · exact wevolves_refl w
  · exact wevolves_refl w

theorem wevolves_handle_failure (maxRetries : Nat) (w : World)
    (oidOpt : Option String) (body : Option Json) (props : Props) (err : String) :
    WEvolves w (handle_failure maxRetries w oidOpt body props err) := by
  simp only [handle_failure]
  have h2 : WEvolves w (ack (classify_update w oidOpt err)) :=
    wevolves_trans (wevolves_classify_update w oidOpt err) (wevolves_ack _)
  split
  · exact wevolves_trans h2 (wevolves_trans (wevolves_publish_to_queue _ _ _ _ _)
      (wevolves_of_orders_eq (audit_retry_scheduled_orders _ _ _ _)))
  · exact wevolves_trans h2 (wevolves_trans (wevolves_publish_to_queue _ _ _ _ _)
      (wevolves_finalize_dlq _ _ _ _))

theorem wevolves_mark_if_truthy (w : World) (oid : String) (event_id : Option String) :
    WEvolves w (mark_if_truthy w oid event_id) := by
  unfold mark_if_truthy
  split
  · split
    · exact wevolves_mark_processed _ _ _
    · exact wevolves_refl w
  · exact wevolves_refl w

theorem wevolves_on_msg_parsed (env : Env) (maxRetries : Nat) (w : World)
    (oid : String) (event_id : Option String) (body : Option Json) (props : Props) :
    WEvolves w (on_msg_parsed env maxRetries w oid event_id body props) := by
  unfold on_msg_parsed
  split
  · exact wevolves_trans (wevolves_add_event _ _ _ _) (wevolves_ack _)
  · split
    case _ w1 heq =>
      have hw1 : WEvolves w w1 := by
        have := wevolves_process_order env w oid
        rw [heq] at this
        exact this
      exact wevolves_trans hw1 (wevolves_trans (wevolves_mark_if_truthy _ _ _) (wevolves_ack _))
    case _ w1 e heq =>
      have hw1 : WEvolves w w1 := by
        have := wevolves_process_order env w oid
        rw [heq] at this
        exact this
      exact wevolves_trans hw1 (wevolves_handle_failure _ _ _ _ _ _)

theorem wevolves_on_msg (env : Env) (maxRetries : Nat) (w : World)
    (body : Option Json) (props : Props) :
    WEvolves w (on_msg env maxRetries w body props) := by
  unfold on_msg
  split
  · exact wevolves_handle_failure _ _ _ _ _ _
  · exact wevolves_on_msg_parsed _ _ _ _ _ _ _

@[simp] theorem outbox_delete_orders (db : Db) (i : Nat) :
    (outbox_delete db i).orders = db.orders := rfl
@[simp] theorem outbox_delete_events (db : Db) (i : Nat) :
    (outbox_delete db i).events = db.events := rfl
@[simp] theorem outbox_delete_users (db : Db) (i : Nat) :
    (outbox_delete db i).users = db.users := rfl
@[simp] theorem outbox_delete_outbox (db : Db) (i : Nat) :
    (outbox_delete db i).outbox = db.outbox.filter (fun r => r.id ≠ i) := rfl

theorem outbox_publish_row_orders (pubOk : OutboxRow → Bool) (w : World) (r : OutboxRow) :
    (outbox_publish_row pubOk w r).db.orders
      = if pubOk r then
          updateWhere w.db.orders r.aggregate_id (set_status_row "QUEUED" none false)
        else w.db.orders := by
  unfold outbox_publish_row
  split <;> simp_all

theorem wevolves_outbox_row (pubOk : OutboxRow → Bool) (w : World) (r : OutboxRow) :
    WEvolves w (outbox_publish_row pubOk w r) := by
  by_cases hp : pubOk r
  · exact wevolves_of_updateWhere (evolves_row_set_status _ _ _)
      (by rw [outbox_publish_row_orders, if_pos hp])
  · exact wevolves_of_orders_eq (by rw [outbox_publish_row_orders, if_neg hp])

theorem wevolves_outbox_rows (pubOk : OutboxRow → Bool) :
    ∀ (rows : List OutboxRow) (w : World),
      WEvolves w (outbox_publish_rows pubOk w rows)
  | [], w => wevolves_refl w
  | r :: rs, w => by
    rw [outbox_publish_rows]
    exact wevolves_trans (wevolves_outbox_row pubOk w r)
      (wevolves_outbox_rows pubOk rs _)

theorem wevolves_run_outbox_batch (pubOk : OutboxRow → Bool) (w : World)
    (limit : Nat) : WEvolves w (run_outbox_batch pubOk w limit) :=
  wevolves_outbox_rows pubOk _ w

-- =========================================================================
-- C10: frame property of set_status
-- =========================================================================

/-- C10: for every order and every status, `set_status` with `last_error`
omitted (`none`) leaves the stored `last_error` unchanged, and `set_status`
never modifies `payload`, `assigned_driver_id`, `last_event_id`,
`created_at`, or (when `inc_retry` is false) `retry_count`. -/
theorem set_status_frame (w : World) (oid st : String) (le : Option String) (inc : Bool) :
    List.Forall₂ (fun o o' =>
      o'.payload = o.payload ∧
      o'.assigned_driver_id = o.assigned_driver_id ∧
      o'.last_event_id = o.last_event_id ∧
      o'.created_at = o.created_at ∧
      (inc = false → o'.retry_count = o.retry_count) ∧
      (le = none → o'.last_error = o.last_error))
      w.db.orders (set_status w oid st le inc).db.orders := by
  rw [set_status_orders]
  refine forall₂_updateWhere ?_ ?_ w.db.orders oid
  · exact fun o => ⟨rfl, rfl, rfl, rfl, fun _ => rfl, fun _ => rfl⟩
  · intro o
    refine ⟨rfl, rfl, rfl, rfl, ?_, ?_⟩
    · intro h
      simp [set_status_row, h]
    · intro h
      simp [set_status_row, h, coalesce]

-- =========================================================================
-- C9: terminator with no driver candidates
-- =========================================================================

/-- C9: when the terminator runs and no driver candidate exists, the order
still becomes `READY_FOR_DRIVER`, `assigned_driver_id` stays null,
`DRIVER_ASSIGN_FAILED{reason:"no_driver_found"}` is audited, and no driver
notification push is attempted (the only side effect is the status push). -/
theorem terminator_no_driver (w : World) (oid : String) (o : Order)
    (ho : lookupOrder w.db.orders oid = some o)
    (hnull : o.assigned_driver_id = none)
    (hpick : pick_driver_id w.db.users = none) :
    (lookupOrder (mark_ready_for_driver w oid).db.orders oid
       = some (set_status_row "READY_FOR_DRIVER" none false o) ∧
     (set_status_row "READY_FOR_DRIVER" none false o).status = "READY_FOR_DRIVER" ∧
     (set_status_row "READY_FOR_DRIVER" none false o).assigned_driver_id = none) ∧
    (mark_ready_for_driver w oid).db.events
      = w.db.events
        ++ [(oid, "READY_FOR_DRIVER", Json.obj [("assigned_driver_id", Json.null)]),
            (oid, "DRIVER_ASSIGN_FAILED", Json.obj [("reason", Json.str "no_driver_found")])] ∧
    (mark_ready_for_driver w oid).acts = w.acts ++ [Action.statusPush oid "READY_FOR_DRIVER"] := by
  have hid := lookupOrder_id ho
  have hw1 : lookupOrder (updateWhere w.db.orders oid (set_status_row "READY_FOR_DRIVER" none false)) oid
      = some (set_status_row "READY_FOR_DRIVER" none false o) := by
    rw [lookupOrder_updateWhere w.db.orders oid oid (set_status_row "READY_FOR_DRIVER" none false)
        (fun _ => rfl),
      ho]
    simp [hid]
  have hrow : (set_status_row "READY_FOR_DRIVER" none false o).assigned_driver_id = none := hnull
  have hassign : assign_driver_if_missing (set_status w oid "READY_FOR_DRIVER" none false) oid
      = (none, set_status w oid "READY_FOR_DRIVER" none false) := by
    unfold assign_driver_if_missing
    simp [hw1, set_status_users, hpick, truthyOptStr, hrow]
  simp only [mark_ready_for_driver, hassign]
  refine ⟨⟨?_, rfl, hnull⟩, ?_, ?_⟩
  · rw [driver_branch_orders, add_event_orders, set_status_orders]
    exact hw1
  · simp [driver_branch, optStrJson]
  · simp [driver_branch, optStrJson]

/-- Witness for C9 at a concrete world: one `PROCESSING` order `O1`, an
empty `users` table. -/
theorem terminator_no_driver_witness :
    (mark_ready_for_driver wOne "O1").acts
      = wOne.acts ++ [Action.statusPush "O1" "READY_FOR_DRIVER"] :=
  (terminator_no_driver wOne "O1" orderO1 rfl rfl rfl).2.2

-- =========================================================================
-- C7: assigned_driver_id is write-once; CAS semantics of assignment
-- =========================================================================

/-- C7: a non-null `assigned_driver_id` is never changed by any worker or
publisher operation; `assign_driver_if_missing` writes only when
`assigned_driver_id` is null, returns the now-effective driver id whether
newly set or pre-existing, and returns null when no driver candidate exists. -/
theorem assigned_driver_write_once (w : World) (oid : String) :
    (∀ env maxRetries body props,
       List.Forall₂ KeepsAssigned w.db.orders (on_msg env maxRetries w body props).db.orders) ∧
    (∀ pubOk limit,
       List.Forall₂ KeepsAssigned w.db.orders (run_outbox_batch pubOk w limit).db.orders) ∧
    (∀ o d, lookupOrder w.db.orders oid = some o → o.assigned_driver_id = some d → d ≠ "" →
       assign_driver_if_missing w oid = (some d, w)) ∧
    (∀ o, lookupOrder w.db.orders oid = some o → o.assigned_driver_id = none →
       pick_driver_id w.db.users = none → assign_driver_if_missing w oid = (none, w)) ∧
    (∀ o d, lookupOrder w.db.orders oid = some o → o.assigned_driver_id = none →
       pick_driver_id w.db.users = some d →
       (assign_driver_if_missing w oid).1 = some d ∧
       lookupOrder (assign_driver_if_missing w oid).2.db.orders oid
         = some { o with assigned_driver_id := some d }) := by
  refine ⟨?_, ?_, ?_, ?_, ?_⟩
  · intro env maxRetries body props
    exact (wevolves_on_msg env maxRetries w body props).imp (fun _ _ h => h.2.2)
  · intro pubOk limit
    exact (wevolves_run_outbox_batch pubOk w limit).imp (fun _ _ h => h.2.2)
  · intro o d ho hd hne
    unfold assign_driver_if_missing
    simp [ho, hd, truthyOptStr, hne]
  · intro o ho hn hp
    unfold assign_driver_if_missing
    simp [ho, hn, truthyOptStr, hp]
  · intro o d ho hn hp
    have hid := lookupOrder_id ho
    constructor
    · unfold assign_driver_if_missing
      simp [ho, hn, truthyOptStr, hp]
    · unfold assign_driver_if_missing
      simp only [ho, hn, truthyOptStr, hp, Bool.false_eq_true, if_false, setOrders_orders]
      rw [lookupOrder_updateWhere w.db.orders oid oid _
          (fun o2 => by by_cases h : o2.assigned_driver_id = none <;> simp [h]),
        ho]
      simp [hid, hn]

-- =========================================================================
-- C2: idempotency gate
-- =========================================================================

/-- A delivery whose `(order_id, event_id)` passes the duplicate gate is
answered by exactly `DUPLICATE_SKIP` + ack. -/
theorem on_msg_dup_eq (env : Env) (maxRetries : Nat) (w : World)
    (body : Option Json) (props : Props) (oid ev : String)
    (hx : safe_extract_order_id body = Except.ok oid) (hoid : oid ≠ "")
    (hev : safe_extract_event_id body props = some ev) (hne : ev ≠ "")
    (hdup : already_processed w.db oid ev = true) :
    on_msg env maxRetries w body props
      = ack (add_event w oid "DUPLICATE_SKIP" (Json.obj [("event_id", Json.str ev)])) := by
  simp only [on_msg, hx, on_msg_parsed, hev]
  have hgate : dup_gate w oid (some ev) = true := by
    simp [dup_gate, hoid, hne, hdup]
  rw [hgate]
  simp [optStrJson]

/-- C2: a delivery whose `(order_id, event_id)` matches the order's
`last_event_id` only audits `DUPLICATE_SKIP` and acknowledges — the order
rows are untouched and no adapter is called; and once a first delivery has
been processed to a terminal state and marked, any further delivery of the
same pair is a no-op on the order rows. -/
theorem idempotency_gate (env : Env) (maxRetries : Nat) :
    (∀ w body props oid ev o,
       safe_extract_order_id body = Except.ok oid → oid ≠ "" →
       safe_extract_event_id body props = some ev → ev ≠ "" →
       lookupOrder w.db.orders oid = some o → o.last_event_id = some ev →
       (on_msg env maxRetries w body props).db.orders = w.db.orders ∧
       (on_msg env maxRetries w body props).db.events
         = w.db.events ++ [(oid, "DUPLICATE_SKIP", Json.obj [("event_id", Json.str ev)])] ∧
       (on_msg env maxRetries w body props).acts = w.acts ++ [Action.ack]) ∧
    (∀ w body props oid ev o,
       safe_extract_order_id body = Except.ok oid → oid ≠ "" →
       safe_extract_event_id body props = some ev → ev ≠ "" →
       lookupOrder w.db.orders oid = some o → o.last_event_id ≠ some ev →
       (process_order env w oid).2 = none →
       (∃ o₁, lookupOrder (on_msg env maxRetries w body props).db.orders oid = some o₁ ∧
          o₁.last_event_id = some ev) ∧
       (on_msg env maxRetries (on_msg env maxRetries w body props) body props).db.orders
         = (on_msg env maxRetries w body props).db.orders) := by
  constructor
  · intro w body props oid ev o hx hoid hev hne ho hlast
    have hdup : already_processed w.db oid ev = true := by
      simp [already_processed, ho, hlast]
    rw [on_msg_dup_eq env maxRetries w body props oid ev hx hoid hev hne hdup]
    exact ⟨by simp, by simp, by simp⟩
  · intro w body props oid ev o hx hoid hev hne ho hlast hsucc
    have hgate : dup_gate w oid (some ev) = false := by
      simp [dup_gate, already_processed, ho, hlast]
    have hpair : process_order env w oid = ((process_order env w oid).1, none) := by
      rw [← hsucc]
    have hrun : on_msg env maxRetries w body props
        = ack (mark_processed (process_order env w oid).1 oid ev) := by
      simp only [on_msg, hx, on_msg_parsed, hev, hgate]
      rw [hpair]
      simp [mark_if_truthy, hoid, hne]
    obtain ⟨o₂, ho₂, _⟩ := forall₂_lookup (fun _ _ h => h.1)
      (wevolves_process_order env w oid) ho
    have hido₂ := lookupOrder_id ho₂
    have hlook1 : lookupOrder (on_msg env maxRetries w body props).db.orders oid
        = some { o₂ with last_event_id := some ev } := by
      rw [hrun]
      simp only [ack_db, mark_processed_orders]
      rw [lookupOrder_updateWhere (process_order env w oid).1.db.orders oid oid
          (fun o => { o with last_event_id := some ev }) (fun _ => rfl), ho₂]
      simp [hido₂]
    refine ⟨⟨{ o₂ with last_event_id := some ev }, hlook1, rfl⟩, ?_⟩
    have hdup1 : already_processed (on_msg env maxRetries w body props).db oid ev = true := by
      simp [already_processed, hlook1]
    rw [on_msg_dup_eq env maxRetries (on_msg env maxRetries w body props) body props oid ev
      hx hoid hev hne hdup1]
    simp

-- =========================================================================
-- C1: ack + retry republish with exponential TTL, DLQ after exhaustion
-- =========================================================================

theorem classify_update_acts (w : World) (oidOpt : Option String) (err : String) :
    (classify_update w oidOpt err).acts
      = w.acts ++ (match oidOpt with
          | some oid => if oid ≠ "" then [Action.statusPush oid (classify_error err)] else []
          | none => []) := by
  unfold classify_update
  split
  · split <;> simp
  · simp

theorem audit_retry_scheduled_acts (w : World) (oidOpt : Option String) (n t : Nat) :
    (audit_retry_scheduled w oidOpt n t).acts = w.acts := by
  unfold audit_retry_scheduled
  split
  · split <;> simp
  · simp

theorem finalize_dlq_acts (w : World) (oidOpt : Option String) (err : String)
    (retries : Nat) :
    (finalize_dlq w oidOpt err retries).acts
      = w.acts ++ (match oidOpt with
          | some oid => if oid ≠ "" then [Action.statusPush oid "DLQ"] else []
          | none => []) := by
  unfold finalize_dlq
  split
  · split <;> simp
  · simp

theorem classify_update_orders_some (w : World) (oid err : String) (h : oid ≠ "") :
    (classify_update w (some oid) err).db.orders
      = updateWhere w.db.orders oid (set_status_row (classify_error err) (some err) true) := by
  simp [classify_update, h]

theorem finalize_dlq_orders_some (w : World) (oid err : String) (retries : Nat)
    (h : oid ≠ "") :
    (finalize_dlq w (some oid) err retries).db.orders
      = updateWhere w.db.orders oid (set_status_row "DLQ" (some err) false) := by
  simp [finalize_dlq, h]

theorem dispatches_until_dlq_linear (m : Nat) :
    ∀ n r, m - r = n → r ≤ m → dispatches_until_dlq m r = m + 1 - r := by
  intro n
  induction n with
  | zero =>
    intro r h0 hr
    have hrm : r = m := le_antisymm hr (Nat.le_of_sub_eq_zero h0)
    subst hrm
    unfold dispatches_until_dlq
    simp
  | succ k ih =>
    intro r hk hr
    have hlt : r < m := by omega
    unfold dispatches_until_dlq
    rw [if_pos hlt, ih (r + 1) (by omega) (by omega)]
    omega

/-- C1: on any exception the worker acks and republishes — to the retry
queue with `x-retries + 1` and per-message expiration
`min(MAX_RETRY_TTL_MS, BASE_RETRY_TTL_MS · 2^(next_retry−1))` while the
budget allows, otherwise to the DLQ (setting the order's status to `DLQ`);
hence a persistently failing message reaches the DLQ at dispatch
`MAX_RETRIES + 1`. -/
theorem retry_schedule_and_dlq (env : Env) (maxRetries : Nat) (w : World)
    (body : Option Json) (props : Props) :
    (∀ e, safe_extract_order_id body = Except.error e →
       on_msg env maxRetries w body props = handle_failure maxRetries w none body props e) ∧
    (∀ oid e, safe_extract_order_id body = Except.ok oid →
       dup_gate w oid (safe_extract_event_id body props) = false →
       (process_order env w oid).2 = some e →
       on_msg env maxRetries w body props
         = handle_failure maxRetries (process_order env w oid).1 (some oid) body props e) ∧
    (∀ w0 oidOpt err,
       Action.ack ∈ (handle_failure maxRetries w0 oidOpt body props err).acts) ∧
    (∀ w0 oidOpt err, get_retry_count props + 1 ≤ maxRetries →
       Action.publish QUEUE_RETRY body
           (setHeader (setHeader props.headers "x-retries" (HVal.int (get_retry_count props + 1)))
             "x-ttl-ms"
             (HVal.int (min MAX_RETRY_TTL_MS (BASE_RETRY_TTL_MS * 2 ^ (get_retry_count props + 1 - 1)))))
           (some (min MAX_RETRY_TTL_MS (BASE_RETRY_TTL_MS * 2 ^ (get_retry_count props + 1 - 1))))
         ∈ (handle_failure maxRetries w0 oidOpt body props err).acts) ∧
    (∀ w0 oidOpt err, maxRetries < get_retry_count props + 1 →
       Action.publish QUEUE_DLQ body
           (setHeader props.headers "x-dlq-reason" (HVal.str (err.take 200))) none
         ∈ (handle_failure maxRetries w0 oidOpt body props err).acts ∧
       (∀ oid o, oidOpt = some oid → oid ≠ "" → lookupOrder w0.db.orders oid = some o →
          ∃ o', lookupOrder (handle_failure maxRetries w0 oidOpt body props err).db.orders oid
              = some o' ∧ o'.status = "DLQ")) ∧
    dispatches_until_dlq maxRetries 0 = maxRetries + 1 := by
  refine ⟨?_, ?_, ?_, ?_, ?_, ?_⟩
  · intro e hx
    simp only [on_msg, hx]
  · intro oid e hx hg hp2
    have hpair : process_order env w oid = ((process_order env w oid).1, some e) := by
      rw [← hp2]
    simp only [on_msg, hx, on_msg_parsed, hg, Bool.false_eq_true, if_false]
    rw [hpair]
  · intro w0 oidOpt err
    simp only [handle_failure]
    split
    · simp [audit_retry_scheduled_acts, publish_retry]
    · simp [finalize_dlq_acts, publish_dlq]
  · intro w0 oidOpt err hle
    simp only [handle_failure]
    rw [if_pos (by omega : get_retry_count props < maxRetries)]
    simp [audit_retry_scheduled_acts, publish_retry]
  · intro w0 oidOpt err hgt
    simp only [handle_failure]
    rw [if_neg (by omega : ¬ get_retry_count props < maxRetries)]
    constructor
    · simp [finalize_dlq_acts, publish_dlq]
    · intro oid o hsome hoid ho
      subst hsome
      refine ⟨set_status_row "DLQ" (some err) false
        (set_status_row (classify_error err) (some err) true o), ?_, rfl⟩
      rw [finalize_dlq_orders_some _ _ _ _ hoid]
      have hid := lookupOrder_id ho
      have hin : lookupOrder (publish_dlq (ack (classify_update w0 (some oid) err)) body props err).db.orders oid
          = some (set_status_row (classify_error err) (some err) true o) := by
        simp only [publish_to_queue_db, publish_dlq, ack_db]
        rw [classify_update_orders_some _ _ _ hoid,
          lookupOrder_updateWhere w0.db.orders oid oid
            (set_status_row (classify_error err) (some err) true) (fun _ => rfl),
          ho]
        simp [hid]
      rw [lookupOrder_updateWhere _ oid oid
          (set_status_row "DLQ" (some err) false) (fun _ => rfl),
        hin]
      simp only [Option.map]
      rw [if_pos (show (set_status_row (classify_error err) (some err) true o).id = oid from hid)]
  · exact (dispatches_until_dlq_linear maxRetries maxRetries 0 (by omega) (by omega)).trans
      (by omega)

-- =========================================================================
-- C3: malformed messages
-- =========================================================================

/-- C3 (amended): a message whose body is not parseable JSON or lacks
`order_id` mutates no database state at all; it is acknowledged and, while
`x-retries < MAX_RETRIES`, republished to the retry queue with incremented
`x-retries`; only once the budget is exhausted is it published to the DLQ,
with `x-dlq-reason` equal to the truncated exception text (not
`"malformed"`). -/
theorem malformed_retried_then_dlq (env : Env) (maxRetries : Nat) (w : World)
    (body : Option Json) (props : Props) (e : String)
    (hx : safe_extract_order_id body = Except.error e) :
    (on_msg env maxRetries w body props).db = w.db ∧
    (get_retry_count props < maxRetries →
       (on_msg env maxRetries w body props).acts
         = w.acts ++ [Action.ack,
             Action.publish QUEUE_RETRY body
               (setHeader (setHeader props.headers "x-retries" (HVal.int (get_retry_count props + 1)))
                 "x-ttl-ms"
                 (HVal.int (min MAX_RETRY_TTL_MS (BASE_RETRY_TTL_MS * 2 ^ (get_retry_count props + 1 - 1)))))
               (some (min MAX_RETRY_TTL_MS (BASE_RETRY_TTL_MS * 2 ^ (get_retry_count props + 1 - 1))))]) ∧
    (maxRetries ≤ get_retry_count props →
       (on_msg env maxRetries w body props).acts
         = w.acts ++ [Action.ack,
             Action.publish QUEUE_DLQ body
               (setHeader props.headers "x-dlq-reason" (HVal.str (e.take 200))) none]) := by
  have hrw : on_msg env maxRetries w body props = handle_failure maxRetries w none body props e := by
    simp only [on_msg, hx]
  rw [hrw]
  simp only [handle_failure]
  refine ⟨?_, ?_, ?_⟩
  · split <;>
      simp [classify_update, audit_retry_scheduled, finalize_dlq, publish_retry, publish_dlq]
  · intro hlt
    rw [if_pos hlt]
    simp [classify_update, audit_retry_scheduled, publish_retry]
  · intro hge
    rw [if_neg (by omega)]
    simp [classify_update, finalize_dlq, publish_dlq]

/-- C3 counterexample: a fresh unparseable delivery (`x-retries = 0`,
`MAX_RETRIES = 5`) is acknowledged and republished to the retry queue —
not sent straight to the DLQ, and no `"malformed"` reason appears. -/
theorem malformed_not_straight_to_dlq :
    (on_msg okEnv 5 wEmpty none propsFresh).acts
      = [Action.ack,
         Action.publish QUEUE_RETRY none
           [("x-retries", HVal.int 1), ("x-ttl-ms", HVal.int 2000)] (some 2000)] ∧
    QUEUE_RETRY ≠ QUEUE_DLQ :=
  ⟨rfl, by decide⟩

/-- Witness for the amended C3 at a concrete malformed delivery. -/
theorem malformed_retried_witness :
    (on_msg okEnv 5 wEmpty none propsFresh).db = wEmpty.db :=
  (malformed_retried_then_dlq okEnv 5 wEmpty none propsFresh
    "json parse error: Expecting value" rfl).1

-- =========================================================================
-- C4: retry_count monotonicity and where increments happen
-- =========================================================================

/-- C4 (amended): `retry_count` is monotonically non-decreasing across all
store operations, and it is incremented exactly by the failure
classification update of the worker's `except` block, whose target status
is `CMS_ERROR`, `ROS_ERROR`, `WMS_ERROR` or `FAILED` (the default
classification) — never on any other transition. -/
theorem retry_count_monotonic :
    (∀ w oid st le inc,
       List.Forall₂ (fun o o' => RetryMono o o' ∧ (inc = false → o'.retry_count = o.retry_count))
         w.db.orders (set_status w oid st le inc).db.orders) ∧
    (∀ w oid ev, List.Forall₂ (fun o o' => o'.retry_count = o.retry_count)
       w.db.orders (mark_processed w oid ev).db.orders) ∧
    (∀ w oid route, List.Forall₂ (fun o o' => o'.retry_count = o.retry_count)
       w.db.orders (save_route w oid route).db.orders) ∧
    (∀ w oid, List.Forall₂ (fun o o' => o'.retry_count = o.retry_count)
       w.db.orders (assign_driver_if_missing w oid).2.db.orders) ∧
    (∀ env maxRetries w body props, List.Forall₂ RetryMono
       w.db.orders (on_msg env maxRetries w body props).db.orders) ∧
    (∀ pubOk w limit, List.Forall₂ RetryMono
       w.db.orders (run_outbox_batch pubOk w limit).db.orders) ∧
    (∀ err, classify_error err = "CMS_ERROR" ∨ classify_error err = "ROS_ERROR" ∨
       classify_error err = "WMS_ERROR" ∨ classify_error err = "FAILED") ∧
    (∀ maxRetries w body props err oid o, oid ≠ "" →
       lookupOrder w.db.orders oid = some o →
       ∃ o', lookupOrder (handle_failure maxRetries w (some oid) body props err).db.orders oid
           = some o' ∧ o'.retry_count = o.retry_count + 1) := by
  refine ⟨?_, ?_, ?_, ?_, ?_, ?_, ?_, ?_⟩
  · intro w oid st le inc
    rw [set_status_orders]
    refine forall₂_updateWhere (fun o => ⟨le_refl _, fun _ => rfl⟩) ?_ w.db.orders oid
    intro o
    refine ⟨?_, ?_⟩
    · cases inc <;> simp [RetryMono, set_status_row]
    · intro h
      simp [set_status_row, h]
  · intro w oid ev
    rw [mark_processed_orders]
    exact @forall₂_updateWhere (fun o o' => o'.retry_count = o.retry_count)
      (fun o => { o with last_event_id := some ev })
      (fun _ => rfl) (fun _ => rfl) w.db.orders oid
  · intro w oid route
    rw [save_route_orders]
    exact @forall₂_updateWhere (fun o o' => o'.retry_count = o.retry_count)
      (fun o => { o with payload := jsonb_set_route o.payload route })
      (fun _ => rfl) (fun _ => rfl) w.db.orders oid
  · intro w oid
    unfold assign_driver_if_missing
    split
    · exact @forall₂_refl_of Order (fun o o' => o'.retry_count = o.retry_count) (fun _ => rfl) _
    · split
      · exact @forall₂_refl_of Order (fun o o' => o'.retry_count = o.retry_count) (fun _ => rfl) _
      · split
        · exact @forall₂_refl_of Order (fun o o' => o'.retry_count = o.retry_count) (fun _ => rfl) _
        · exact @forall₂_updateWhere (fun o o' => o'.retry_count = o.retry_count) _
            (fun _ => rfl)
            (fun o => by by_cases h : o.assigned_driver_id = none <;> simp [h]) _ _
  · intro env maxRetries w body props
    exact (wevolves_on_msg env maxRetries w body props).imp (fun _ _ h => h.2.1)
  · intro pubOk w limit
    exact (wevolves_run_outbox_batch pubOk w limit).imp (fun _ _ h => h.2.1)
  · intro err
    simp only [classify_error]
    split
    · exact Or.inl rfl
    · split
      · exact Or.inr (Or.inl rfl)
      · split
        · exact Or.inr (Or.inr (Or.inl rfl))
        · exact Or.inr (Or.inr (Or.inr rfl))
  · intro maxRetries w body props err oid o hoid ho
    have hid := lookupOrder_id ho
    simp only [handle_failure]
    split
    · refine ⟨set_status_row (classify_error err) (some err) true o, ?_, ?_⟩
      · rw [audit_retry_scheduled_orders]
        simp only [publish_retry, publish_to_queue_db, ack_db]
        rw [classify_update_orders_some _ _ _ hoid,
          lookupOrder_updateWhere w.db.orders oid oid
            (set_status_row (classify_error err) (some err) true) (fun _ => rfl),
          ho]
        simp [hid]
      · simp [set_status_row]
    · refine ⟨set_status_row "DLQ" (some err) false
        (set_status_row (classify_error err) (some err) true o), ?_, ?_⟩
      · rw [finalize_dlq_orders_some _ _ _ _ hoid]
        have hin : lookupOrder (publish_dlq (ack (classify_update w (some oid) err)) body props err).db.orders oid
            = some (set_status_row (classify_error err) (some err) true o) := by
          simp only [publish_dlq, publish_to_queue_db, ack_db]
          rw [classify_update_orders_some _ _ _ hoid,
            lookupOrder_updateWhere w.db.orders oid oid
              (set_status_row (classify_error err) (some err) true) (fun _ => rfl),
            ho]
          simp [hid]
        rw [lookupOrder_updateWhere _ oid oid
            (set_status_row "DLQ" (some err) false) (fun _ => rfl),
          hin]
        simp only [Option.map]
        rw [if_pos (show (set_status_row (classify_error err) (some err) true o).id = oid from hid)]
      · simp [set_status_row]

/-- C4 counterexample: the unclassifiable error text `"boom"` makes the
worker increment `retry_count` on a transition to `FAILED`, which is not
one of the `*_ERROR` statuses. -/
theorem retry_increment_on_failed_cex :
    ((lookupOrder (handle_failure 5 wOne (some "O1") none propsFresh "boom").db.orders "O1").map
        Order.status = some "FAILED") ∧
    ((lookupOrder (handle_failure 5 wOne (some "O1") none propsFresh "boom").db.orders "O1").map
        Order.retry_count = some 1) ∧
    ((lookupOrder wOne.db.orders "O1").map Order.retry_count = some 0) ∧
    "FAILED" ∉ (["CMS_ERROR", "ROS_ERROR", "WMS_ERROR"] : List String) :=
  ⟨rfl, rfl, rfl, by decide⟩

-- =========================================================================
-- C5: WMS adapter success criterion
-- =========================================================================

/-- C5 (amended): the WMS adapter call fails exactly when the socket
operation raises (timeout / connection error), propagating that exception;
any received reply line — regardless of its content — is returned as
success, and the pipeline attempt aborts exactly when the adapter call
errors. -/
theorem wms_success_is_any_reply (net : String → TcpOutcome) (oid : String) :
    (∀ line, net oid = TcpOutcome.reply line →
       call_wms_tcp net oid = Except.ok (strStrip line)) ∧
    (∀ m, net oid = TcpOutcome.sockError m → call_wms_tcp net oid = Except.error m) ∧
    (∀ env w m c route, env.cms oid = Except.ok c → env.ros oid = Except.ok route →
       env.wms oid = Except.error m →
       (∀ s, get_status w.db oid = some s → s ∉ DONE_STATUSES) →
       (process_order env w oid).2 = some m) ∧
    (∀ env w r c route, env.cms oid = Except.ok c → env.ros oid = Except.ok route →
       env.wms oid = Except.ok r →
       (∀ s, get_status w.db oid = some s → s ∉ DONE_STATUSES) →
       (process_order env w oid).2 = none) := by
  refine ⟨?_, ?_, ?_, ?_⟩
  · intro line h
    simp [call_wms_tcp, h]
  · intro m h
    simp [call_wms_tcp, h]
  · intro env w m c route hc hr hw hskip
    have hpipe : (process_order_pipeline env w oid).2 = some m := by
      simp [process_order_pipeline, hc, hr, hw]
    unfold process_order
    split
    case _ s hs =>
      rw [if_neg (hskip s hs)]
      exact hpipe
    case _ => exact hpipe
  · intro env w r c route hc hr hw hskip
    have hpipe : (process_order_pipeline env w oid).2 = none := by
      simp [process_order_pipeline, hc, hr, hw]
    unfold process_order
    split
    case _ s hs =>
      rw [if_neg (hskip s hs)]
      exact hpipe
    case _ => exact hpipe

/-- C5 counterexample: with the WMS backend answering `NACK` — which starts
with neither `OK|` nor `ACK|` — the adapter call succeeds and the pipeline
attempt completes to `READY_FOR_DRIVER` instead of aborting. -/
theorem wms_nack_not_failure_cex :
    call_wms_tcp nackNet "O1" = Except.ok "NACK" ∧
    strStarts "NACK" "OK|" = false ∧
    strStarts "NACK" "ACK|" = false ∧
    (process_order nackEnv wNew "O1").2 = none ∧
    ((lookupOrder (process_order nackEnv wNew "O1").1.db.orders "O1").map Order.status
       = some "READY_FOR_DRIVER") :=
  ⟨rfl, rfl, rfl, rfl, rfl⟩

-- =========================================================================
-- C6: outbox rows are deleted only after a successful publish
-- =========================================================================

theorem mem_insertById (r a : OutboxRow) : ∀ l, a ∈ insertById r l ↔ a = r ∨ a ∈ l
  | [] => by simp [insertById]
  | x :: xs => by
    by_cases h : r.id ≤ x.id
    · simp [insertById, h]
    · simp only [insertById, h, if_false, List.mem_cons, mem_insertById r a xs]
      tauto

theorem mem_sortById (a : OutboxRow) : ∀ l, a ∈ sortById l ↔ a ∈ l
  | [] => Iff.rfl
  | x :: xs => by
    show a ∈ insertById x (sortById xs) ↔ _
    rw [mem_insertById, mem_sortById a xs, List.mem_cons]

theorem length_insertById (r : OutboxRow) : ∀ l, (insertById r l).length = l.length + 1
  | [] => rfl
  | x :: xs => by
    by_cases h : r.id ≤ x.id
    · simp [insertById, h]
    · simp [insertById, h, length_insertById r xs]

theorem length_sortById : ∀ l, (sortById l).length = l.length
  | [] => rfl
  | x :: xs => by
    show (insertById x (sortById xs)).length = _
    rw [length_insertById, length_sortById xs, List.length_cons]

/-- A claimed row whose publish fails survives the whole batch run. -/
theorem outbox_rows_retain (pubOk : OutboxRow → Bool) (r : OutboxRow)
    (hpub : pubOk r = false) :
    ∀ (rows : List OutboxRow) (w : World), r ∈ w.db.outbox →
      (∀ r' ∈ rows, r'.id = r.id → r' = r) →
      r ∈ (outbox_publish_rows pubOk w rows).db.outbox
  | [], _, hmem, _ => hmem
  | r' :: rs, w, hmem, hids => by
    rw [outbox_publish_rows]
    refine outbox_rows_retain pubOk r hpub rs _ ?_
      (fun x hx => hids x (List.mem_cons_of_mem _ hx))
    unfold outbox_publish_row
    split
    case isTrue hp =>
      simp only [add_event_outbox, set_status_outbox, outbox_delete_outbox]
      have hne : r.id ≠ r'.id := by
        intro he
        rw [hids r' (List.mem_cons_self r' rs) he.symm] at hp
        rw [hpub] at hp
        cases hp
      exact List.mem_filter.mpr ⟨hmem, by simp [hne]⟩
    case isFalse hp => exact hmem

/-- C6: a claimed outbox row is deleted exactly when the broker publish of
its message succeeded; if the publish raises, the row is not deleted and a
later `claim_batch` (with sufficient limit) returns it again. -/
theorem outbox_delete_only_after_publish (w : World) (limit : Nat)
    (pubOk : OutboxRow → Bool) (r : OutboxRow)
    (hmem : r ∈ outbox_fetch_batch w.db.outbox limit)
    (hnodup : (w.db.outbox.map OutboxRow.id).Nodup) :
    (r ∉ (run_outbox_batch pubOk w limit).db.outbox → pubOk r = true) ∧
    (pubOk r = false →
       r ∈ (run_outbox_batch pubOk w limit).db.outbox ∧
       r ∈ outbox_fetch_batch (run_outbox_batch pubOk w limit).db.outbox
             ((run_outbox_batch pubOk w limit).db.outbox.length)) := by
  have hmem0 : r ∈ w.db.outbox := by
    have hs : r ∈ sortById w.db.outbox :=
      (List.take_sublist limit (sortById w.db.outbox)).subset hmem
    exact (mem_sortById r _).mp hs
  have hinj : ∀ r' ∈ outbox_fetch_batch w.db.outbox limit, r'.id = r.id → r' = r := by
    intro r' hr' he
    have hr'0 : r' ∈ w.db.outbox := by
      have hs : r' ∈ sortById w.db.outbox :=
        (List.take_sublist limit (sortById w.db.outbox)).subset hr'
      exact (mem_sortById r' _).mp hs
    exact List.inj_on_of_nodup_map hnodup hr'0 hmem0 he
  have hretain : pubOk r = false → r ∈ (run_outbox_batch pubOk w limit).db.outbox :=
    fun hpub => outbox_rows_retain pubOk r hpub (outbox_fetch_batch w.db.outbox limit) w hmem0 hinj
  constructor
  · intro hnot
    by_contra hne
    exact hnot (hretain (Bool.eq_false_iff.mpr (fun he => hne he)))
  · intro hpub
    refine ⟨hretain hpub, ?_⟩
    rw [outbox_fetch_batch, ← length_sortById, List.take_length]
    exact (mem_sortById r _).mpr (hretain hpub)

/-- Witness for C6: the broker rejects row 1 of a two-row outbox; row 1 is
still pending after the batch. -/
theorem outbox_retention_witness :
    obRow1 ∈ (run_outbox_batch pubFail1 wOutbox 50).db.outbox :=
  ((outbox_delete_only_after_publish wOutbox 50 pubFail1 obRow1
      (show obRow1 ∈ [obRow1, obRow2] from List.mem_cons_self _ _)
      (by decide)).2 rfl).1

-- =========================================================================
-- C8: the happy path
-- =========================================================================

theorem getField_map_set (k : String) (v : Json) :
    ∀ fields : List (String × Json), (fields.any (fun kv => kv.1 = k)) = true →
      getField (fields.map (fun kv => if kv.1 = k then (k, v) else kv)) k = some v
  | [], h => by simp at h
  | (k', v') :: rest, h => by
    rw [List.map_cons]
    by_cases hk : k' = k
    · subst hk
      rw [show (if (k', v').1 = k' then (k', v) else (k', v')) = (k', v) by simp]
      simp [getField]
    · rw [show (if (k', v').1 = k then (k, v) else (k', v')) = (k', v') by simp [hk]]
      rw [getField, if_neg hk]
      apply getField_map_set k v rest
      simp only [List.any_cons, Bool.or_eq_true, decide_eq_true_eq] at h
      rcases h with h | h
      · exact absurd h hk
      · simpa using h

theorem getField_append_missing (k : String) (v : Json) :
    ∀ fields : List (String × Json), (fields.any (fun kv => kv.1 = k)) = false →
      getField (fields ++ [(k, v)]) k = some v
  | [], _ => by simp [getField]
  | (k', v') :: rest, h => by
    simp only [List.any_cons, Bool.or_eq_false_iff, decide_eq_false_iff_not] at h
    simp only [List.cons_append, getField, if_neg h.1]
    exact getField_append_missing k v rest h.2

/-- `jsonb_set` makes the written key readable back. -/
theorem getField_setField (fields : List (String × Json)) (k : String) (v : Json) :
    getField (setField fields k v) k = some v := by
  unfold setField
  split
  case isTrue h => exact getField_map_set k v fields h
  case isFalse h => exact getField_append_missing k v fields (Bool.eq_false_iff.mpr h)

/-- C8: for an order whose processing succeeds at every stage on the first
attempt, the final status is `READY_FOR_DRIVER`, `retry_count` is 0,
`payload.route` equals the object returned by ROS, and the event log holds,
in order: CREATED, OUTBOX_ENQUEUED, QUEUED, PROCESSING, CMS_CALLING,
CMS_OK, ROS_CALLING, ROUTE_SAVED, ROS_OK, WMS_CALLING, WMS_OK,
READY_FOR_DRIVER, DRIVER_ASSIGNED. -/
theorem happy_path (env : Env) (maxRetries : Nat) (users : List User)
    (oid client d c wres : String) (payloadFields : List (String × Json)) (route : Json)
    (hoid : oid ≠ "")
    (hc : env.cms oid = Except.ok c)
    (hr : env.ros oid = Except.ok route)
    (hw : env.wms oid = Except.ok wres)
    (hd : pick_driver_id users = some d)
    (hdne : d ≠ "") :
    (lookupOrder (happy_run env maxRetries users oid client (Json.obj payloadFields)).db.orders oid).map
        Order.status = some "READY_FOR_DRIVER" ∧
    (lookupOrder (happy_run env maxRetries users oid client (Json.obj payloadFields)).db.orders oid).map
        Order.retry_count = some 0 ∧
    (lookupOrder (happy_run env maxRetries users oid client (Json.obj payloadFields)).db.orders oid).map
        (fun o => payloadRoute o.payload) = some (some route) ∧
    eventTypesFor (happy_run env maxRetries users oid client (Json.obj payloadFields)).db oid
      = ["CREATED", "OUTBOX_ENQUEUED", "QUEUED", "PROCESSING", "CMS_CALLING", "CMS_OK",
         "ROS_CALLING", "ROUTE_SAVED", "ROS_OK", "WMS_CALLING", "WMS_OK",
         "READY_FOR_DRIVER", "DRIVER_ASSIGNED"] := by
  have hone : (toString (1 : Nat)) = "1" := rfl
  refine ⟨?_, ?_, ?_, ?_⟩ <;>
    simp [happy_run, create_order, run_outbox_batch, outbox_fetch_batch, sortById, insertById,
      outbox_publish_rows, outbox_publish_row, outbox_msg, outbox_msg_props, outbox_delete,
      publish_to_queue, set_status, set_status_row, add_event, updateWhere, lookupOrder,
      on_msg, safe_extract_order_id, safe_extract_event_id, getField, correlation_fallback,
      on_msg_parsed, dup_gate, already_processed, process_order, get_status, DONE_STATUSES,
      process_order_pipeline, log_call, save_route, jsonb_set_route, mark_ready_for_driver,
      assign_driver_if_missing, truthyOptStr, driver_branch, notify_driver, mark_if_truthy,
      mark_processed, ack, optStrJson, eventTypesFor, payloadRoute, coalesce,
      hone, hoid, hc, hr, hw, hd, hdne, getField_setField]

/-- Witness for C8 at concrete inputs: order `ORD-1`, driver `D1`, all
adapters of `okEnv`. -/
theorem happy_path_witness :
    eventTypesFor (happy_run okEnv 5 [⟨"D1", "driver"⟩] "ORD-1" "C001" (Json.obj [])).db "ORD-1"
      = ["CREATED", "OUTBOX_ENQUEUED", "QUEUED", "PROCESSING", "CMS_CALLING", "CMS_OK",
         "ROS_CALLING", "ROUTE_SAVED", "ROS_OK", "WMS_CALLING", "WMS_OK",
         "READY_FOR_DRIVER", "DRIVER_ASSIGNED"] :=
  (happy_path okEnv 5 [⟨"D1", "driver"⟩] "ORD-1" "C001" "D1" "<CreateOrderResponse/>"
    "OK|WMS_OK" [] (Json.obj [("distance_km", Json.num 12)])
    (by decide) rfl rfl rfl rfl (by decide)).2.2.2

end SwiftLogistics
